import Mathlib

/-
Verification of the N-FileJ terminal file manager
(src/src/file_manager/main.py, class NFileJ).

The app-specific logic is shallowly embedded:
  - `resolveCommand` embeds the platform-dependent editor-command
    construction inside `NFileJ.run_editor` (lines 31-36);
  - `run_editor` embeds the whole method (lines 28-39): the
    `with self.suspend():` block, the `try`/`except Exception` around the
    `subprocess.run` call, and the diagnostic `print`;
  - `compose` embeds `NFileJ.compose` (lines 18-22);
  - `action_toggle_dark` embeds `NFileJ.action_toggle_dark` (lines 41-42).

Python's `sys.platform` is modelled as a `String` parameter, `os.environ`
as a function `String → Option String` (so `os.environ.get k d` is
`(env k).getD d`), and the outcome of the `subprocess.run` call as an
oracle value `LaunchOutcome` supplied to `run_editor`: Python's
`subprocess.run` without `check=True` either returns a `CompletedProcess`
carrying the child's exit status (it does NOT raise on a non-zero exit)
or raises an exception when process construction or execution fails
(e.g. `FileNotFoundError` for a missing executable).
-/

namespace NFileJ

/-- A resolved command: either a string run through the shell
(`subprocess.run(cmd, shell=True)`) or a direct argument vector
(`subprocess.run([prog, arg, ...])`). -/
inductive Command
  | shell (cmdline : String)
  | argv (args : List String)
  deriving DecidableEq, Repr

/-- The Windows command string built by the f-string on line 33 of the
source: the literal text with `file_path` interpolated verbatim. -/
def winStartCommand (file_path : String) : String :=
  "start /wait \"\" \"" ++ file_path ++ "\""

/-- Embedding of the command construction in `NFileJ.run_editor`
(main.py lines 31-36): on `sys.platform == "win32"` the shell string
`start /wait "" "<file_path>"`; otherwise the argument vector
`[os.environ.get('EDITOR', 'nano'), file_path]`. -/
def resolveCommand (platform : String) (env : String → Option String)
    (file_path : String) : Command :=
  if platform = "win32" then
    Command.shell (winStartCommand file_path)
  else
    Command.argv [(env "EDITOR").getD "nano", file_path]

/-- Outcome of the `subprocess.run` call, supplied as an oracle: either
the call returns normally with the child's exit status (Python's
`subprocess.run` without `check=True` does not raise on a non-zero
exit), or the call raises an exception (missing executable, OS-level
launch failure), carried here as its message string. -/
inductive LaunchOutcome
  | completed (exitStatus : Int)
  | raised (msg : String)
  deriving DecidableEq, Repr

/-- Observable events emitted by `run_editor`: entering `self.suspend()`,
leaving it, launching the child process, and writing a line with
`print`. -/
inductive Event
  | suspend
  | resume
  | launch (cmd : Command)
  | printed (msg : String)
  deriving DecidableEq, Repr

/-- Embedding of the `try`/`except Exception` block of
`NFileJ.run_editor` (main.py lines 30-39): the resolved command is
launched; when the launch raises, the handler prints
`Error opening editor: <e>` and swallows the exception. The second
component is the exception propagating out of the block — always `none`,
since `except Exception` catches everything the launch can raise. -/
def tryExcept (cmd : Command) (outcome : LaunchOutcome) : List Event × Option String :=
  match outcome with
  | LaunchOutcome.completed _ => ([Event.launch cmd], none)
  | LaunchOutcome.raised msg =>
      ([Event.launch cmd, Event.printed ("Error opening editor: " ++ msg)], none)

/-- Embedding of `NFileJ.run_editor` (main.py lines 28-39). The
`with self.suspend():` statement emits `Event.suspend` on entry and
`Event.resume` on exit; Python's `with` runs `__exit__` on every exit
path, so `Event.resume` follows the body's events unconditionally.
Returns the event trace and the exception (if any) propagating out of
the method. -/
def run_editor (platform : String) (env : String → Option String)
    (file_path : String) (outcome : LaunchOutcome) : List Event × Option String :=
  let body := tryExcept (resolveCommand platform env file_path) outcome
  (Event.suspend :: body.1 ++ [Event.resume], body.2)

/-- Widgets yielded by `NFileJ.compose`. -/
inductive Widget
  | header
  | footer
  | directoryTree (rootPath : String) (id : String)
  deriving DecidableEq, Repr

/-- Embedding of `NFileJ.compose` (main.py lines 18-22). The body is
exactly three `yield` statements and performs no other effect (in
particular no filesystem write); `os.path.expanduser` is modelled as a
function parameter, so the tree root is the expansion of `"~"`. -/
def compose (expanduser : String → String) : List Widget :=
  [Widget.header, Widget.directoryTree (expanduser "~") "tree-container", Widget.footer]

/-- Root path of a yielded widget, when it is a `DirectoryTree`. -/
def Widget.treeRoot : Widget → Option String
  | Widget.directoryTree rootPath _ => some rootPath
  | _ => none

/-- Embedding of `NFileJ.action_toggle_dark` (main.py lines 41-42):
`self.theme = "textual-light" if self.theme == "textual-dark" else
"textual-dark"`, as a function from the current theme to the next. -/
def action_toggle_dark (theme : String) : String :=
  if theme = "textual-dark" then "textual-light" else "textual-dark"

/-- Scans characters up to the first double quote: returns the token
read and the characters after the closing quote, or `none` when no
closing quote occurs. Used to express what a shell reading a
double-quoted token makes of the Windows command string. -/
def scanQuoted : List Char → Option (List Char × List Char)
  | [] => none
  | c :: rest =>
      if c = '\"' then some ([], rest)
      else
        match scanQuoted rest with
        | some (tok, rem) => some (c :: tok, rem)
        | none => none

/-- Reads one double-quoted token: expects an opening `"` and consumes
up to the matching closing `"`. -/
def readQuotedToken : List Char → Option (List Char × List Char)
  | '\"' :: rest => scanQuoted rest
  | _ => none

/-- C1: for every targetPath and every non-Windows platform state in
which the environment variable EDITOR is set to `E`, the editor command
that `run_editor` resolves and passes to the process launcher is exactly
the argument vector `[E, targetPath]`. -/
theorem resolveCommand_nonWindows_editor_set (platform : String)
    (env : String → Option String) (targetPath E : String)
    (hplat : platform ≠ "win32") (henv : env "EDITOR" = some E) :
    resolveCommand platform env targetPath = Command.argv [E, targetPath] := by
  simp [resolveCommand, hplat, henv]

/-- Witness for C1: on platform `linux` with EDITOR set to `vim`, the
resolved command for `/home/user/notes.txt` is
`["vim", "/home/user/notes.txt"]`. -/
theorem resolveCommand_nonWindows_editor_set_witness :
    resolveCommand "linux" (fun k => if k = "EDITOR" then some "vim" else none)
      "/home/user/notes.txt" = Command.argv ["vim", "/home/user/notes.txt"] :=
  resolveCommand_nonWindows_editor_set "linux"
    (fun k => if k = "EDITOR" then some "vim" else none)
    "/home/user/notes.txt" "vim" (by decide) (by simp)

/-- C2: for every targetPath, on a non-Windows platform state in which
EDITOR is unset, the resolved editor command uses the fallback editor
name `nano`: the argument vector is `["nano", targetPath]`. -/
theorem resolveCommand_nonWindows_editor_unset (platform : String)
    (env : String → Option String) (targetPath : String)
    (hplat : platform ≠ "win32") (henv : env "EDITOR" = none) :
    resolveCommand platform env targetPath = Command.argv ["nano", targetPath] := by
  simp [resolveCommand, hplat, henv]

/-- Witness for C2: on platform `darwin` with an empty environment, the
resolved command for `/tmp/a.txt` is `["nano", "/tmp/a.txt"]`. -/
theorem resolveCommand_nonWindows_editor_unset_witness :
    resolveCommand "darwin" (fun _ => none) "/tmp/a.txt" =
      Command.argv ["nano", "/tmp/a.txt"] :=
  resolveCommand_nonWindows_editor_unset "darwin" (fun _ => none) "/tmp/a.txt"
    (by decide) rfl

/-- C3: for every targetPath, on the Windows platform state
(`sys.platform == "win32"`) and for every environment (so independently
of EDITOR), the resolved command is the shell-invoked string
`start /wait "" "<targetPath>"`. -/
theorem resolveCommand_windows (env : String → Option String) (targetPath : String) :
    resolveCommand "win32" env targetPath =
      Command.shell ("start /wait \"\" \"" ++ targetPath ++ "\"") := by
  simp [resolveCommand, winStartCommand]

/-- C4: for every invocation of `run_editor` and every outcome of the
child-process launch (normal completion, non-zero exit, or a raised
launch error), the trace contains exactly one `suspend` and exactly one
`resume`, and the `resume` is the last event before control returns to
the UI: no exit path leaves the display suspended. -/
theorem run_editor_suspend_resume_paired (platform : String)
    (env : String → Option String) (targetPath : String) (outcome : LaunchOutcome) :
    (run_editor platform env targetPath outcome).1.count Event.suspend = 1 ∧
    (run_editor platform env targetPath outcome).1.count Event.resume = 1 ∧
    (run_editor platform env targetPath outcome).1.getLast? = some Event.resume := by
  cases outcome <;>
    simp [run_editor, tryExcept, List.count_cons, List.count_append]

/-- C5: for every invocation of `run_editor` in which process
construction or execution raises an error, the error is caught inside
`run_editor` (no exception propagates: the second component is `none`),
a diagnostic `Error opening editor: <e>` is printed, and the display is
resumed before control returns to the UI. -/
theorem run_editor_catches_launch_error (platform : String)
    (env : String → Option String) (targetPath msg : String)
    (outcome : LaunchOutcome) (h : outcome = LaunchOutcome.raised msg) :
    (run_editor platform env targetPath outcome).2 = none ∧
    Event.printed ("Error opening editor: " ++ msg) ∈
      (run_editor platform env targetPath outcome).1 ∧
    (run_editor platform env targetPath outcome).1.getLast? = some Event.resume := by
  subst h
  simp [run_editor, tryExcept]

/-- Witness for C5: a launch of `/home/u/f.txt` on `linux` that raises
`No such file or directory: nano` is caught, prints the diagnostic, and
resumes the display. -/
theorem run_editor_catches_launch_error_witness :
    (run_editor "linux" (fun _ => none) "/home/u/f.txt"
        (LaunchOutcome.raised "No such file or directory")).2 = none ∧
    Event.printed ("Error opening editor: " ++ "No such file or directory") ∈
      (run_editor "linux" (fun _ => none) "/home/u/f.txt"
        (LaunchOutcome.raised "No such file or directory")).1 ∧
    (run_editor "linux" (fun _ => none) "/home/u/f.txt"
        (LaunchOutcome.raised "No such file or directory")).1.getLast? =
      some Event.resume :=
  run_editor_catches_launch_error "linux" (fun _ => none) "/home/u/f.txt"
    "No such file or directory" _ rfl

/-- C6 counterexample: when the child process started for
`/home/u/f.txt` on `linux` exits with status 1, the trace of
`run_editor` contains no `printed` event at all — the application does
not print a diagnostic, contrary to the claim (Python's
`subprocess.run` is called without `check=True`, so a non-zero exit
raises nothing and the `except` block never runs). -/
theorem run_editor_nonzero_exit_prints_nothing :
    (run_editor "linux" (fun _ => none) "/home/u/f.txt"
        (LaunchOutcome.completed 1)).1 =
      [Event.suspend, Event.launch (Command.argv ["nano", "/home/u/f.txt"]),
       Event.resume] ∧
    ¬ ∃ m, Event.printed m ∈
      (run_editor "linux" (fun _ => none) "/home/u/f.txt"
        (LaunchOutcome.completed 1)).1 := by
  constructor
  · rfl
  · simp [run_editor, tryExcept, resolveCommand]

/-- C6 amended: for every invocation of `run_editor` in which the child
process starts successfully but exits with a non-zero status, the
application prints no diagnostic (the non-zero exit status is ignored),
no exception propagates, and the display is resumed, so the UI remains
responsive afterward. -/
theorem run_editor_nonzero_exit_silent (platform : String)
    (env : String → Option String) (targetPath : String)
    (outcome : LaunchOutcome) (code : Int)
    (h : outcome = LaunchOutcome.completed code) (hne : code ≠ 0) :
    (∀ m, Event.printed m ∉ (run_editor platform env targetPath outcome).1) ∧
    (run_editor platform env targetPath outcome).2 = none ∧
    (run_editor platform env targetPath outcome).1.getLast? = some Event.resume := by
  subst h
  simp [run_editor, tryExcept]

/-- Witness for the amended C6: exit status 2 of a child launched for
`/home/u/f.txt` on `darwin` produces no printed diagnostic, propagates
nothing and resumes the display. -/
theorem run_editor_nonzero_exit_silent_witness :
    (∀ m, Event.printed m ∉
      (run_editor "darwin" (fun _ => none) "/home/u/f.txt"
        (LaunchOutcome.completed 2)).1) ∧
    (run_editor "darwin" (fun _ => none) "/home/u/f.txt"
        (LaunchOutcome.completed 2)).2 = none ∧
    (run_editor "darwin" (fun _ => none) "/home/u/f.txt"
        (LaunchOutcome.completed 2)).1.getLast? = some Event.resume :=
  run_editor_nonzero_exit_silent "darwin" (fun _ => none) "/home/u/f.txt" _ 2
    rfl (by decide)

/-- C7: for every expansion function (modelling `os.path.expanduser`),
`compose` yields exactly a header, a `DirectoryTree` rooted at the
expansion of `"~"`, and a footer — and nothing else, so in particular
every directory tree yielded is rooted at the user's home directory and
the body performs no effect beyond these three yields (no filesystem
write). -/
theorem compose_tree_rooted_at_home (expanduser : String → String) :
    compose expanduser =
      [Widget.header,
       Widget.directoryTree (expanduser "~") "tree-container",
       Widget.footer] ∧
    ∀ w ∈ compose expanduser, ∀ r, Widget.treeRoot w = some r → r = expanduser "~" := by
  refine ⟨rfl, ?_⟩
  intro w hw r hr
  simp [compose] at hw
  rcases hw with h | h | h <;> subst h <;> simp [Widget.treeRoot] at hr
  exact hr.symm

/-- C8: the theme toggle alternates between the two themes: applying
`action_toggle_dark` to `textual-dark` yields `textual-light`, applying
it to `textual-light` yields `textual-dark`, and from either state two
consecutive toggles restore the original theme. -/
theorem action_toggle_dark_alternates :
    action_toggle_dark "textual-dark" = "textual-light" ∧
    action_toggle_dark "textual-light" = "textual-dark" ∧
    action_toggle_dark (action_toggle_dark "textual-dark") = "textual-dark" ∧
    action_toggle_dark (action_toggle_dark "textual-light") = "textual-light" := by
  refine ⟨?_, ?_, ?_, ?_⟩ <;> decide

/-- C10: `action_toggle_dark` maps every theme other than `textual-dark`
to `textual-dark`; hence for any initial theme outside
`textual-dark`/`textual-light`, two toggles yield `textual-light`, which
differs from the initial theme — the double toggle does not restore it. -/
theorem action_toggle_dark_outside_pair (theme : String)
    (hd : theme ≠ "textual-dark") (hl : theme ≠ "textual-light") :
    action_toggle_dark theme = "textual-dark" ∧
    action_toggle_dark (action_toggle_dark theme) = "textual-light" ∧
    action_toggle_dark (action_toggle_dark theme) ≠ theme := by
  refine ⟨?_, ?_, ?_⟩ <;> simp [action_toggle_dark, hd]
  exact fun h => hl h.symm

/-- Witness for C10: starting from the theme `gruvbox`, one toggle gives
`textual-dark` and two toggles give `textual-light`, not `gruvbox`. -/
theorem action_toggle_dark_outside_pair_witness :
    action_toggle_dark "gruvbox" = "textual-dark" ∧
    action_toggle_dark (action_toggle_dark "gruvbox") = "textual-light" ∧
    action_toggle_dark (action_toggle_dark "gruvbox") ≠ "gruvbox" :=
  action_toggle_dark_outside_pair "gruvbox" (by decide) (by decide)

/-- A token read by `scanQuoted` never contains a double quote: the scan
stops at the first one. -/
theorem scanQuoted_no_quote (l : List Char) :
    ∀ tok rem, scanQuoted l = some (tok, rem) → '\"' ∉ tok := by
  induction l with
  | nil => intro tok rem h; simp [scanQuoted] at h
  | cons c rest ih =>
      intro tok rem h
      by_cases hc : c = '\"'
      · simp [scanQuoted, hc] at h
        rcases h with ⟨h1, _⟩
        subst h1; simp
      · simp only [scanQuoted, if_neg hc] at h
        cases hscan : scanQuoted rest with
        | none => rw [hscan] at h; simp at h
        | some pr =>
            obtain ⟨tok', rem'⟩ := pr
            rw [hscan] at h
            simp at h
            rcases h with ⟨h1, _⟩
            subst h1
            intro hmem
            rcases List.mem_cons.mp hmem with h | h
            · exact hc h.symm
            · exact ih tok' rem' hscan h

/-- Scanning quote-free content followed by a closing quote yields
exactly that content. -/
theorem scanQuoted_of_no_quote (cs rest : List Char) (h : '\"' ∉ cs) :
    scanQuoted (cs ++ '\"' :: rest) = some (cs, rest) := by
  induction cs with
  | nil => simp [scanQuoted]
  | cons c cs ih =>
      have hc : c ≠ '\"' := fun e => h (by simp [e])
      have hcs : '\"' ∉ cs := fun m => h (by simp [m])
      simp [scanQuoted, hc, ih hcs]

/-- Characters of the Windows command string split as the 15-character
literal prefix and the quoted interpolated path. -/
theorem winStartCommand_data (targetPath : String) :
    (winStartCommand targetPath).data =
      "start /wait \"\" ".data ++ ('\"' :: (targetPath.data ++ ['\"'])) := by
  show ("start /wait \"\" \"" ++ targetPath ++ "\"").data = _
  simp [String.data_append]

/-- Dropping the 15-character literal prefix of the Windows command
string leaves the interpolated path surrounded by double quotes. -/
theorem winStartCommand_drop (targetPath : String) :
    List.drop 15 (winStartCommand targetPath).data =
      '\"' :: (targetPath.data ++ ['\"']) := by
  rw [winStartCommand_data]
  have h2 : ("start /wait \"\" ".data).length = 15 := by decide
  rw [← h2, List.drop_left]

/-- C9: the Windows command string interpolates the targetPath verbatim
with no escaping; hence reading the quoted token that follows the
15-character prefix `start /wait "" ` yields the path exactly when the
path is free of double quotes, while for any path containing a double
quote the token read is never the path itself (the embedded quote
terminates the quoting). -/
theorem winStartCommand_quote_unescaped (targetPath : String) :
    winStartCommand targetPath = "start /wait \"\" \"" ++ targetPath ++ "\"" ∧
    List.drop 15 (winStartCommand targetPath).data =
      '\"' :: (targetPath.data ++ ['\"']) ∧
    ('\"' ∉ targetPath.data →
      readQuotedToken (List.drop 15 (winStartCommand targetPath).data) =
        some (targetPath.data, [])) ∧
    ('\"' ∈ targetPath.data →
      ∀ tok rem,
        readQuotedToken (List.drop 15 (winStartCommand targetPath).data) =
          some (tok, rem) → tok ≠ targetPath.data) := by
  have hdrop := winStartCommand_drop targetPath
  refine ⟨rfl, hdrop, ?_, ?_⟩
  · intro hfree
    rw [hdrop]
    show scanQuoted (targetPath.data ++ '\"' :: []) = some (targetPath.data, [])
    exact scanQuoted_of_no_quote targetPath.data [] hfree
  · intro hquote tok rem h
    rw [hdrop] at h
    have hsc : scanQuoted (targetPath.data ++ ['\"']) = some (tok, rem) := h
    have hnq := scanQuoted_no_quote _ tok rem hsc
    intro he
    subst he
    exact hnq hquote

/-- Witness for C9: for the path `a"b`, the quoted token read from the
Windows command string is `a`, not the path. -/
theorem winStartCommand_quote_unescaped_witness :
    readQuotedToken (List.drop 15 (winStartCommand "a\"b").data) =
      some (['a'], ['b', '\"']) ∧ (['a'] : List Char) ≠ ("a\"b" : String).data :=
  ⟨by decide,
   (winStartCommand_quote_unescaped "a\"b").2.2.2 (by decide) ['a'] ['b', '\"']
     (by decide)⟩

end NFileJ
